import Mathlib

/-!
Shallow embedding of the habits backend's authentication and vault core
(`app/services/auth_service.py`, `app/services/vault_service.py`,
`app/services/wallet_auth_service.py`, `app/core/security.py`, and the
`app/api/v1` route handlers).  The relational store is modelled as explicit
lists of rows threaded through each operation; Python exceptions become
`Except` errors; the Argon2 primitive and the signature-recovery primitive
are opaque function parameters, exactly as the services treat them.
-/

namespace Habits

/-- Errors of the passlib layer: `CryptContext.verify` raises
`UnknownHashError` when the stored hash matches no configured scheme, and
`TypeError` when the stored hash is `None`. -/
inductive PasslibError where
  | unknownHash : PasslibError
  | typeError : PasslibError
deriving DecidableEq

/-- Typed service-layer failures: each constructor is one Python exception
class raised by the services (`AuthenticationError`, `UserNotFoundError`,
`VaultNotFoundError`, `VaultAccessDeniedError`, `ValueError`, SQLAlchemy's
`MultipleResultsFound`, an escaping passlib error, `WalletAuthError`,
`WalletAlreadyExistsError`), carrying the message string where the code
attaches one. -/
inductive ServiceError where
  | authenticationFailed (msg : String)
  | userNotFound (msg : String)
  | vaultNotFound (msg : String)
  | vaultAccessDenied (msg : String)
  | valueError (msg : String)
  | multipleResultsFound
  | passlibError (e : PasslibError)
  | walletAuthError (msg : String)
  | walletAlreadyExistsError (msg : String)
deriving DecidableEq

/-- Python `str.startswith`, over explicit character lists. -/
def startsWithAux : List Char → List Char → Bool
  | [], _ => true
  | _ :: _, [] => false
  | p :: ps, c :: cs => p == c && startsWithAux ps cs

/-- `s.startswith(p)` in Python. -/
def pyStartsWith (s p : String) : Bool := startsWithAux p.data s.data

/-- ASCII case folding of one character, the fragment of Python `str.lower`
relevant to hex wallet addresses (which the schema validator constrains to
ASCII `0x…` strings). -/
def pyLowerChar (c : Char) : Char :=
  if 65 ≤ c.toNat ∧ c.toNat ≤ 90 then Char.ofNat (c.toNat + 32) else c

/-- Python `str.lower` on ASCII strings. -/
def pyLower (s : String) : String := String.mk (s.data.map pyLowerChar)

/-- A row of the `user` table (`app/models/database.py`): the two identity
variants live in one table with nullable field groups. Timestamps are clock
ticks. -/
structure User where
  id : Nat
  auth_type : String
  username : Option String
  auth_hash : Option String
  salt : Option String
  wallet_address : Option String
  message_version : Option Nat
  created_at : Nat
  updated_at : Nat
deriving DecidableEq

/-- A row of the `vault` table (`app/models/database.py`). -/
structure Vault where
  id : Nat
  vault_id : String
  user_id : Nat
  ciphertext : String
  iv : String
  salt : String
  version : Nat
  created_at : Nat
  updated_at : Nat
deriving DecidableEq

/-- The database state: the two tables, the autoincrement counters for their
primary keys, and the current clock used for `datetime.utcnow()`. -/
structure Store where
  users : List User
  vaults : List Vault
  nextUserId : Nat
  nextVaultRow : Nat
  now : Nat
deriving DecidableEq

/-- SQLAlchemy `Result.scalar_one_or_none()`: `None` on zero rows, the row on
exactly one, and a raised `MultipleResultsFound` on two or more. -/
def scalarOneOrNone {α : Type} : List α → Except ServiceError (Option α)
  | [] => .ok none
  | [x] => .ok (some x)
  | _ :: _ :: _ => .error .multipleResultsFound

/-- passlib's hash identification for the configured `argon2` scheme: the
handler recognizes a stored hash by its `$argon2i$` / `$argon2d$` /
`$argon2id$` ident prefix. -/
def identifyArgon2 (h : String) : Bool :=
  pyStartsWith h "$argon2i$" || pyStartsWith h "$argon2d$" || pyStartsWith h "$argon2id$"

/-- passlib `CryptContext.verify` with `schemes=["argon2"]`: identifies the
stored hash's scheme first and raises `UnknownHashError` when it is not
recognizable; otherwise delegates to the Argon2 primitive `argonCheck`
(an opaque parameter abstracting `argon2.verify`). -/
def cryptContextVerify (argonCheck : String → String → Bool)
    (secret storedHash : String) : Except PasslibError Bool :=
  if identifyArgon2 storedHash then .ok (argonCheck secret storedHash)
  else .error .unknownHash

/-- `app/core/security.py::verify_auth_string`: a direct call to
`pwd_context.verify(plain_auth_string, hashed_auth_string)`. -/
def verify_auth_string (argonCheck : String → String → Bool)
    (plain_auth_string hashed_auth_string : String) : Except PasslibError Bool :=
  cryptContextVerify argonCheck plain_auth_string hashed_auth_string

/-- `app/core/security.py::hash_auth_string`: `pwd_context.hash`, abstracted
as the opaque Argon2 hashing primitive `argonHash`. -/
def hash_auth_string (argonHash : String → String) (auth_string : String) : String :=
  argonHash auth_string

/-- A call `verify_auth_string(x, column)` on a nullable column: passing a
`None` stored hash makes passlib raise a `TypeError`. -/
def verifyStoredHash (argonCheck : String → String → Bool)
    (plain : String) (stored : Option String) : Except PasslibError Bool :=
  match stored with
  | none => .error .typeError
  | some h => verify_auth_string argonCheck plain h

/-- `auth_service.register_user`: looks up rows with the same
`(username, salt)` pair; when one exists and its stored hash verifies the
supplied `auth_hash`, raises `ValueError("User already exists")`; otherwise
inserts a fresh password identity whose stored hash is the Argon2 hash of
`auth_hash`. -/
def register_user (argonCheck : String → String → Bool)
    (argonHash : String → String) (st : Store)
    (username auth_hash salt : String) : Except ServiceError User × Store :=
  match scalarOneOrNone (st.users.filter
      (fun u => u.username == some username && u.salt == some salt)) with
  | .error e => (.error e, st)
  | .ok existing =>
    let dup : Except ServiceError Unit :=
      match existing with
      | some w =>
        match verifyStoredHash argonCheck auth_hash w.auth_hash with
        | .error e => .error (.passlibError e)
        | .ok true => .error (.valueError "User already exists")
        | .ok false => .ok ()
      | none => .ok ()
    match dup with
    | .error e => (.error e, st)
    | .ok _ =>
      let u : User :=
        { id := st.nextUserId
          auth_type := "password"
          username := some username
          auth_hash := some (hash_auth_string argonHash auth_hash)
          salt := some salt
          wallet_address := none
          message_version := none
          created_at := st.now
          updated_at := st.now }
      (.ok u, { st with users := st.users ++ [u], nextUserId := st.nextUserId + 1 })

/-- The `for user in users` verification loop of
`auth_service.authenticate_user`: returns the first user whose stored hash
verifies the candidate, and raises `AuthenticationError` when the loop
ends with no match. -/
def findVerified (argonCheck : String → String → Bool) (auth_hash : String) :
    List User → Except ServiceError User
  | [] => .error (.authenticationFailed "Invalid authentication credentials")
  | u :: rest =>
    match verifyStoredHash argonCheck auth_hash u.auth_hash with
    | .error e => .error (.passlibError e)
    | .ok true => .ok u
    | .ok false => findVerified argonCheck auth_hash rest

/-- `auth_service.authenticate_user`: loads every identity with the given
username, raises `UserNotFoundError` when there are none, then tries the
candidate `auth_hash` against each stored hash in turn. -/
def authenticate_user (argonCheck : String → String → Bool) (st : Store)
    (username auth_hash : String) : Except ServiceError User :=
  let users := st.users.filter (fun u => u.username == some username)
  if users.isEmpty then .error (.userNotFound "User not found")
  else findVerified argonCheck auth_hash users

/-- `auth_service.change_user_password_with_vault`: verifies the old
credential first (raising `AuthenticationError` before touching anything),
then requires the caller's single vault (raising `VaultNotFoundError`
otherwise), then updates the identity's credentials and the vault's
contents together in one commit. -/
def change_user_password_with_vault (argonCheck : String → String → Bool)
    (argonHash : String → String) (st : Store) (user : User)
    (old_auth_hash new_auth_hash new_salt vault_ciphertext vault_iv : String)
    (vault_version : Nat) : Except ServiceError User × Store :=
  match verifyStoredHash argonCheck old_auth_hash user.auth_hash with
  | .error e => (.error (.passlibError e), st)
  | .ok false => (.error (.authenticationFailed "Invalid current password"), st)
  | .ok true =>
    match scalarOneOrNone (st.vaults.filter (fun v => v.user_id == user.id)) with
    | .error e => (.error e, st)
    | .ok none => (.error (.vaultNotFound "User has no vault to update"), st)
    | .ok (some vault) =>
      let user' : User :=
        { user with
          auth_hash := some (hash_auth_string argonHash new_auth_hash)
          salt := some new_salt
          updated_at := st.now }
      let vault' : Vault :=
        { vault with
          ciphertext := vault_ciphertext
          iv := vault_iv
          salt := new_salt
          version := vault_version
          updated_at := st.now }
      (.ok user',
        { st with
          users := st.users.map (fun u => if u.id == user.id then user' else u)
          vaults := st.vaults.map (fun v => if v.id == vault.id then vault' else v) })

/-- The body of a `POST /vault` request (`schemas.VaultBlobRequest`). -/
structure VaultBlobRequest where
  vault_id : String
  ciphertext : String
  iv : String
  salt : String
  version : Nat
deriving DecidableEq

/-- The body of a `PUT /vault/{id}` request (`schemas.VaultBlobUpdate`);
`salt` is optional. -/
structure VaultBlobUpdate where
  ciphertext : String
  iv : String
  version : Nat
  salt : Option String
deriving DecidableEq

/-- `vault_service.create_vault`: raises
`ValueError("Vault with this vault_id already exists")` when a vault with
the same `vault_id` exists (a global check on `vault_id` only), otherwise
inserts a vault owned by the caller. -/
def create_vault (st : Store) (user : User) (vd : VaultBlobRequest) :
    Except ServiceError Vault × Store :=
  match scalarOneOrNone (st.vaults.filter (fun v => v.vault_id == vd.vault_id)) with
  | .error e => (.error e, st)
  | .ok (some _) => (.error (.valueError "Vault with this vault_id already exists"), st)
  | .ok none =>
    let v : Vault :=
      { id := st.nextVaultRow
        vault_id := vd.vault_id
        user_id := user.id
        ciphertext := vd.ciphertext
        iv := vd.iv
        salt := vd.salt
        version := vd.version
        created_at := st.now
        updated_at := st.now }
    (.ok v, { st with vaults := st.vaults ++ [v], nextVaultRow := st.nextVaultRow + 1 })

/-- `vault_service.get_vault_by_id`: looks the vault up by `vault_id`,
raising `VaultNotFoundError` when absent, and only then compares
`vault.user_id` with the caller's id, raising `VaultAccessDeniedError` on a
mismatch. -/
def get_vault_by_id (st : Store) (vault_id : String) (user : User) :
    Except ServiceError Vault :=
  match scalarOneOrNone (st.vaults.filter (fun v => v.vault_id == vault_id)) with
  | .error e => .error e
  | .ok none => .error (.vaultNotFound "Vault not found")
  | .ok (some vault) =>
    if vault.user_id != user.id then
      .error (.vaultAccessDenied "Access denied to this vault")
    else .ok vault

/-- `vault_service.update_vault`: delegates the lookup and ownership check
to `get_vault_by_id`, then overwrites ciphertext, iv, version, the salt when
one is supplied, and `updated_at`. -/
def update_vault (st : Store) (vault_id : String) (user : User)
    (vu : VaultBlobUpdate) : Except ServiceError Vault × Store :=
  match get_vault_by_id st vault_id user with
  | .error e => (.error e, st)
  | .ok vault =>
    let salt' := match vu.salt with
      | some s => s
      | none => vault.salt
    let vault' : Vault :=
      { vault with
        ciphertext := vu.ciphertext
        iv := vu.iv
        version := vu.version
        salt := salt'
        updated_at := st.now }
    (.ok vault',
      { st with vaults := st.vaults.map (fun v => if v.id == vault.id then vault' else v) })

/-- `vault_service.delete_vault`: the same `get_vault_by_id` lookup and
ownership sequence, then removal of the row. -/
def delete_vault (st : Store) (vault_id : String) (user : User) :
    Except ServiceError Unit × Store :=
  match get_vault_by_id st vault_id user with
  | .error e => (.error e, st)
  | .ok vault =>
    (.ok (), { st with vaults := st.vaults.filter (fun v => v.id != vault.id) })

/-- `vault_service.get_vault_by_user`: the caller's vault when one exists. -/
def get_vault_by_user (st : Store) (user : User) :
    Except ServiceError (Option Vault) :=
  scalarOneOrNone (st.vaults.filter (fun v => v.user_id == user.id))

/-- `wallet_auth_service.verify_wallet_signature`: recovers the signer
address (the opaque `recover` parameter abstracts EIP-191 recovery, `none`
standing for a raised recovery exception, which the `try` swallows into
`False`) and compares it case-insensitively with the expected address. -/
def verify_wallet_signature (recover : String → String → Option String)
    (message signature expected_address : String) : Bool :=
  match recover message signature with
  | none => false
  | some recovered => pyLower recovered == pyLower expected_address

/-- `wallet_auth_service.register_wallet_user`: verifies the signature
first, then checks the lowercased address for an existing identity, then
inserts a wallet identity storing the lowercased address. -/
def register_wallet_user (recover : String → String → Option String)
    (st : Store) (wallet_address signature message : String)
    (message_version : Nat) : Except ServiceError User × Store :=
  if !verify_wallet_signature recover message signature wallet_address then
    (.error (.walletAuthError "Invalid signature"), st)
  else
    match scalarOneOrNone (st.users.filter
        (fun u => u.wallet_address == some (pyLower wallet_address))) with
    | .error e => (.error e, st)
    | .ok (some _) => (.error (.walletAlreadyExistsError "Wallet already registered"), st)
    | .ok none =>
      let u : User :=
        { id := st.nextUserId
          auth_type := "wallet"
          username := none
          auth_hash := none
          salt := none
          wallet_address := some (pyLower wallet_address)
          message_version := some message_version
          created_at := st.now
          updated_at := st.now }
      (.ok u, { st with users := st.users ++ [u], nextUserId := st.nextUserId + 1 })

/-- `wallet_auth_service.authenticate_wallet_user`: looks the identity up by
the lowercased address (raising `WalletAuthError` when absent), then
verifies the signature against the supplied address. -/
def authenticate_wallet_user (recover : String → String → Option String)
    (st : Store) (wallet_address signature message : String) :
    Except ServiceError User :=
  match scalarOneOrNone (st.users.filter
      (fun u => u.wallet_address == some (pyLower wallet_address))) with
  | .error e => .error e
  | .ok none => .error (.walletAuthError "Wallet not registered")
  | .ok (some user) =>
    if !verify_wallet_signature recover message signature wallet_address then
      .error (.walletAuthError "Invalid signature")
    else .ok user

/-- The observable part of a FastAPI `HTTPException`: status code, detail
string, and the optional `WWW-Authenticate` header value. -/
structure HTTPError where
  status : Nat
  detail : String
  www_authenticate : Option String
deriving DecidableEq

/-- What a route handler produces: a response, a raised `HTTPException`, or
a service exception it does not catch (surfaced by the framework as a 500). -/
inductive ApiResult (α : Type) where
  | ok (a : α)
  | httpError (e : HTTPError)
  | unhandled (e : ServiceError)
deriving DecidableEq

/-- `schemas.AuthResponse` as the login handler fills it. -/
structure AuthResponse where
  access_token : String
  token_type : String
  vault_id : Option String
  salt : Option String
deriving DecidableEq

/-- `app/api/v1/auth.py::login`: delegates to `authenticate_user`, turning
both `UserNotFoundError` and `AuthenticationError` into an identical 401
`HTTPException` with detail "Invalid authentication credentials" and header
`WWW-Authenticate: Bearer`; on success fetches the caller's vault and
returns the token (the opaque `tokenFor` abstracts `create_access_token`),
the vault id when one exists, and the stored salt. -/
def login (argonCheck : String → String → Bool) (tokenFor : Nat → String)
    (st : Store) (username auth_hash : String) : ApiResult AuthResponse :=
  match authenticate_user argonCheck st username auth_hash with
  | .error (.userNotFound _) =>
    .httpError
      { status := 401
        detail := "Invalid authentication credentials"
        www_authenticate := some "Bearer" }
  | .error (.authenticationFailed _) =>
    .httpError
      { status := 401
        detail := "Invalid authentication credentials"
        www_authenticate := some "Bearer" }
  | .error e => .unhandled e
  | .ok user =>
    match get_vault_by_user st user with
    | .error e => .unhandled e
    | .ok vault =>
      .ok
        { access_token := tokenFor user.id
          token_type := "bearer"
          vault_id := vault.map (fun v => v.vault_id)
          salt := user.salt }

/-- Modelled from the spec: `get_salts_by_username` is imported from
`app.services.auth_service` and called by the `GET /auth/salts` handler,
but its definition is absent from the source tree.  Spec §4.5: "returns
all salts across all identities sharing that username … scoped to salts
only (not hashes)". -/
def get_salts_by_username (st : Store) (username : String) : List String :=
  (st.users.filter (fun u => u.username == some username)).filterMap
    (fun u => u.salt)

/-- `app/api/v1/auth.py::get_salts`: the body of the `200 OK` response is
`{"salts": get_salts_by_username(session, username)}`. -/
def get_salts (st : Store) (username : String) : List String :=
  get_salts_by_username st username

/-- Whether one stored identity verifies the candidate credential: the
predicate tested for each candidate row inside `authenticate_user`'s loop. -/
def verifiesB (argonCheck : String → String → Bool) (auth_hash : String) (u : User) : Bool :=
  match u.auth_hash with
  | some h => argonCheck auth_hash h
  | none => false

/-! Concrete instances of the opaque primitives and concrete states, used to
evaluate the operations on explicit inputs. -/

/-- A concrete stand-in for the Argon2 hashing primitive. -/
def demoArgonHash (s : String) : String := "$argon2id$" ++ s

/-- The matching concrete stand-in for the Argon2 verification primitive. -/
def demoArgonCheck (c h : String) : Bool := h == "$argon2id$" ++ c

/-- A concrete password identity whose credential is `"oldauth"`. -/
def demoUser : User :=
  { id := 1
    auth_type := "password"
    username := some "alice"
    auth_hash := some (demoArgonHash "oldauth")
    salt := some "s1"
    wallet_address := none
    message_version := none
    created_at := 0
    updated_at := 0 }

/-- The concrete vault owned by `demoUser`. -/
def demoVault : Vault :=
  { id := 1
    vault_id := "11111111-1111-4111-8111-111111111111"
    user_id := 1
    ciphertext := "ct"
    iv := "iv"
    salt := "s1"
    version := 1
    created_at := 0
    updated_at := 0 }

/-- A concrete store holding `demoUser` and `demoVault`. -/
def demoStore : Store :=
  { users := [demoUser]
    vaults := [demoVault]
    nextUserId := 2
    nextVaultRow := 2
    now := 5 }

/-- A concrete store holding only `demoUser` and no vault. -/
def demoStoreNoVault : Store :=
  { users := [demoUser]
    vaults := []
    nextUserId := 2
    nextVaultRow := 1
    now := 5 }

/-- A second password identity sharing the username `"bob"`. -/
def demoUserB1 : User :=
  { id := 3
    auth_type := "password"
    username := some "bob"
    auth_hash := some (demoArgonHash "b1")
    salt := some "sb1"
    wallet_address := none
    message_version := none
    created_at := 0
    updated_at := 0 }

/-- A third password identity, also named `"bob"` but with its own salt and
credential: usernames are not unique. -/
def demoUserB2 : User :=
  { id := 4
    auth_type := "password"
    username := some "bob"
    auth_hash := some (demoArgonHash "b2")
    salt := some "sb2"
    wallet_address := none
    message_version := none
    created_at := 0
    updated_at := 0 }

/-- A store holding the two identities that share the username `"bob"`. -/
def demoStoreB : Store :=
  { users := [demoUserB1, demoUserB2]
    vaults := []
    nextUserId := 5
    nextVaultRow := 1
    now := 0 }

/-- The empty store. -/
def emptyStore : Store :=
  { users := []
    vaults := []
    nextUserId := 1
    nextVaultRow := 1
    now := 0 }

/-- A second `POST /vault` body with a distinct `vault_id`. -/
def demoVaultReq2 : VaultBlobRequest :=
  { vault_id := "22222222-2222-4222-8222-222222222222"
    ciphertext := "c2"
    iv := "i2"
    salt := "s1"
    version := 1 }

/-- A third `POST /vault` body, again with a distinct `vault_id`. -/
def demoVaultReq3 : VaultBlobRequest :=
  { vault_id := "33333333-3333-4333-8333-333333333333"
    ciphertext := "c3"
    iv := "i3"
    salt := "s1"
    version := 1 }

/-- A concrete stand-in for `create_access_token`. -/
def demoTokenFor : Nat → String := fun n => String.append "token" (toString n)

/-- A concrete stand-in for EIP-191 address recovery: every signature
recovers to the fixed address `"0xAB"`. -/
def demoRecover : String → String → Option String := fun _ _ => some "0xAB"

/-! Helper lemmas. -/

theorem charToNat_ofNat_of_valid (n : Nat) (h : n.isValidChar) :
    (Char.ofNat n).toNat = n := by
  simp [Char.ofNat, h, Char.ofNatAux, Char.toNat, UInt32.toNat, BitVec.toNat_ofNatLt]

theorem pyLowerChar_idem (c : Char) : pyLowerChar (pyLowerChar c) = pyLowerChar c := by
  by_cases h : 65 ≤ c.toNat ∧ c.toNat ≤ 90
  · have hv : (c.toNat + 32).isValidChar := Or.inl (by omega)
    have ht : (Char.ofNat (c.toNat + 32)).toNat = c.toNat + 32 :=
      charToNat_ofNat_of_valid _ hv
    unfold pyLowerChar
    rw [if_pos h, if_neg]
    rw [ht]; omega
  · unfold pyLowerChar
    rw [if_neg h, if_neg h]

theorem pyLower_idem (s : String) : pyLower (pyLower s) = pyLower s := by
  unfold pyLower
  simp only [List.map_map]
  congr 1
  apply List.map_congr_left
  intro a _
  exact pyLowerChar_idem a

theorem replace_filter_nil {l : List Vault} {i : Nat} {vid : String} {v' : Vault}
    (h : ∀ w ∈ l, w.id ≠ i ∧ w.vault_id ≠ vid) :
    (l.map (fun w => if w.id == i then v' else w)).filter
      (fun w => w.vault_id == vid) = [] := by
  induction l with
  | nil => rfl
  | cons a l ih =>
    have ha := h a (List.mem_cons_self a l)
    have h1 : (a.id == i) = false := beq_eq_false_iff_ne.mpr ha.1
    have h2 : (a.vault_id == vid) = false := beq_eq_false_iff_ne.mpr ha.2
    simp only [List.map_cons, h1, Bool.false_eq_true, if_false, List.filter_cons, h2]
    exact ih (fun w hw => h w (List.mem_cons_of_mem a hw))

theorem replace_filter_unique (l : List Vault) (v v' : Vault)
    (hmem : v ∈ l)
    (hid : l.Pairwise (fun a b => a.id ≠ b.id))
    (hvid : l.Pairwise (fun a b => a.vault_id ≠ b.vault_id))
    (hv' : v'.vault_id = v.vault_id) :
    (l.map (fun w => if w.id == v.id then v' else w)).filter
      (fun w => w.vault_id == v.vault_id) = [v'] := by
  induction l with
  | nil => cases hmem
  | cons a l ih =>
    rcases List.mem_cons.mp hmem with rfl | hmem'
    · have hrest : ∀ w ∈ l, w.id ≠ v.id ∧ w.vault_id ≠ v.vault_id := by
        intro w hw
        exact ⟨Ne.symm ((List.pairwise_cons.mp hid).1 w hw),
          Ne.symm ((List.pairwise_cons.mp hvid).1 w hw)⟩
      rw [List.map_cons, if_pos (beq_self_eq_true v.id), List.filter_cons,
        if_pos (by rw [hv']; exact beq_self_eq_true _), replace_filter_nil hrest]
    · have h1 : (a.id == v.id) = false :=
        beq_eq_false_iff_ne.mpr ((List.pairwise_cons.mp hid).1 v hmem')
      have h2 : (a.vault_id == v.vault_id) = false :=
        beq_eq_false_iff_ne.mpr ((List.pairwise_cons.mp hvid).1 v hmem')
      simp only [List.map_cons, h1, Bool.false_eq_true, if_false, List.filter_cons, h2]
      exact ih hmem' (List.pairwise_cons.mp hid).2 (List.pairwise_cons.mp hvid).2

theorem findVerified_ne_userNotFound (argonCheck : String → String → Bool)
    (a : String) (l : List User) (m : String) :
    findVerified argonCheck a l ≠ .error (.userNotFound m) := by
  induction l with
  | nil => simp [findVerified]
  | cons u l ih =>
    unfold findVerified
    cases hv : verifyStoredHash argonCheck a u.auth_hash with
    | error e => simp
    | ok b => cases b <;> simp [ih]

theorem findVerified_ok_iff (argonCheck : String → String → Bool)
    (a : String) (l : List User) (u : User)
    (wf : ∀ w ∈ l, ∃ h, w.auth_hash = some h ∧ identifyArgon2 h = true) :
    findVerified argonCheck a l = .ok u ↔ l.find? (verifiesB argonCheck a) = some u := by
  induction l with
  | nil => simp [findVerified]
  | cons w l ih =>
    obtain ⟨h, hw, hid⟩ := wf w (List.mem_cons_self w l)
    have hv : verifyStoredHash argonCheck a w.auth_hash = .ok (argonCheck a h) := by
      rw [hw]; simp [verifyStoredHash, verify_auth_string, cryptContextVerify, hid]
    have hvb : verifiesB argonCheck a w = argonCheck a h := by
      simp [verifiesB, hw]
    cases hc : argonCheck a h with
    | true =>
      simp [findVerified, hv, hc, List.find?_cons, hvb]
    | false =>
      simp [findVerified, hv, hc, List.find?_cons, hvb,
        ih (fun x hx => wf x (List.mem_cons_of_mem _ hx))]

theorem findVerified_authFailed_iff (argonCheck : String → String → Bool)
    (a : String) (l : List User)
    (wf : ∀ w ∈ l, ∃ h, w.auth_hash = some h ∧ identifyArgon2 h = true) :
    findVerified argonCheck a l
        = .error (.authenticationFailed "Invalid authentication credentials")
      ↔ ∀ w ∈ l, verifiesB argonCheck a w = false := by
  induction l with
  | nil => simp [findVerified]
  | cons w l ih =>
    obtain ⟨h, hw, hid⟩ := wf w (List.mem_cons_self w l)
    have hv : verifyStoredHash argonCheck a w.auth_hash = .ok (argonCheck a h) := by
      rw [hw]; simp [verifyStoredHash, verify_auth_string, cryptContextVerify, hid]
    have hvb : verifiesB argonCheck a w = argonCheck a h := by
      simp [verifiesB, hw]
    cases hc : argonCheck a h with
    | true =>
      simp [findVerified, hv, hc, hvb]
    | false =>
      simp [findVerified, hv, hc, hvb,
        ih (fun x hx => wf x (List.mem_cons_of_mem _ hx))]

theorem filter_vault_id_single (l : List Vault) (v : Vault) (hmem : v ∈ l)
    (hvid : l.Pairwise (fun a b => a.vault_id ≠ b.vault_id)) :
    l.filter (fun w => w.vault_id == v.vault_id) = [v] := by
  induction l with
  | nil => cases hmem
  | cons a l ih =>
    rcases List.mem_cons.mp hmem with rfl | hmem'
    · rw [List.filter_cons, if_pos (beq_self_eq_true v.vault_id)]
      have hrest : ∀ w ∈ l, ¬(w.vault_id == v.vault_id) = true := by
        intro w hw
        simp [Ne.symm ((List.pairwise_cons.mp hvid).1 w hw)]
      rw [List.filter_eq_nil_iff.mpr hrest]
    · have h1 : (a.vault_id == v.vault_id) = false :=
        beq_eq_false_iff_ne.mpr ((List.pairwise_cons.mp hvid).1 v hmem')
      rw [List.filter_cons, if_neg (by simp [h1])]
      exact ih hmem' (List.pairwise_cons.mp hvid).2

/-! Claim theorems. -/

/-- C1: when the supplied old credential does not verify against the user's
stored hash, `change_user_password_with_vault` fails with
`AuthenticationFailed` and returns the store unchanged, so every field of
the identity row (`auth_hash`, `salt`, `updated_at`) and of the vault row
(`ciphertext`, `iv`, `salt`, `version`, `updated_at`) is exactly as before
the call. -/
theorem C1_change_password_wrong_old_credential_no_mutation
    (argonCheck : String → String → Bool) (argonHash : String → String)
    (st : Store) (user : User)
    (old_auth_hash new_auth_hash new_salt vault_ciphertext vault_iv : String)
    (vault_version : Nat) (h : String)
    (hstored : user.auth_hash = some h)
    (hparse : identifyArgon2 h = true)
    (hwrong : argonCheck old_auth_hash h = false) :
    change_user_password_with_vault argonCheck argonHash st user old_auth_hash
        new_auth_hash new_salt vault_ciphertext vault_iv vault_version
      = (.error (.authenticationFailed "Invalid current password"), st) := by
  unfold change_user_password_with_vault
  simp [verifyStoredHash, hstored, verify_auth_string, cryptContextVerify, hparse, hwrong]

/-- C2: for a user owning exactly one vault, after
`change_user_password_with_vault` succeeds with new credential, new salt
and new vault fields, fetching that vault through `get_vault_by_id` returns
exactly the new ciphertext, iv and version, the vault's salt equals the new
salt, and the identity's salt equals the same new salt. -/
theorem C2_change_password_success_vault_reflects_new_data
    (argonCheck : String → String → Bool) (argonHash : String → String)
    (st : Store) (user : User)
    (old_auth_hash new_auth_hash new_salt vault_ciphertext vault_iv : String)
    (vault_version : Nat) (h : String) (v : Vault)
    (hstored : user.auth_hash = some h)
    (hparse : identifyArgon2 h = true)
    (hok : argonCheck old_auth_hash h = true)
    (hone : st.vaults.filter (fun w => w.user_id == user.id) = [v])
    (hids : st.vaults.Pairwise (fun a b => a.id ≠ b.id))
    (hvids : st.vaults.Pairwise (fun a b => a.vault_id ≠ b.vault_id)) :
    ∃ u',
      (change_user_password_with_vault argonCheck argonHash st user old_auth_hash
          new_auth_hash new_salt vault_ciphertext vault_iv vault_version).1 = .ok u' ∧
      u'.salt = some new_salt ∧
      get_vault_by_id
          (change_user_password_with_vault argonCheck argonHash st user old_auth_hash
            new_auth_hash new_salt vault_ciphertext vault_iv vault_version).2
          v.vault_id u'
        = .ok { v with
                ciphertext := vault_ciphertext
                iv := vault_iv
                salt := new_salt
                version := vault_version
                updated_at := st.now } := by
  have hvmem : v ∈ st.vaults.filter (fun w => w.user_id == user.id) := by
    rw [hone]; exact List.mem_singleton_self v
  have hvmem' : v ∈ st.vaults := (List.mem_filter.mp hvmem).1
  have hvown : v.user_id = user.id := by
    have := (List.mem_filter.mp hvmem).2
    exact beq_iff_eq.mp this
  unfold change_user_password_with_vault
  rw [hstored]
  simp only [verifyStoredHash, verify_auth_string, cryptContextVerify, hparse, if_true, hok]
  rw [hone]
  simp only [scalarOneOrNone]
  refine ⟨_, rfl, rfl, ?_⟩
  unfold get_vault_by_id
  dsimp only
  rw [replace_filter_unique st.vaults v { v with ciphertext := vault_ciphertext, iv := vault_iv, salt := new_salt, version := vault_version, updated_at := st.now } hvmem' hids hvids rfl]
  simp [scalarOneOrNone, hvown]

/-- C2 witness: the theorem applied to `demoStore`, rotating the credential
from `"oldauth"` to `"newauth"` and the salt from `"s1"` to `"s2"`. -/
theorem C2_change_password_success_vault_reflects_new_data_witness :
    demoUser.auth_hash = some (demoArgonHash "oldauth") ∧
    identifyArgon2 (demoArgonHash "oldauth") = true ∧
    demoArgonCheck "oldauth" (demoArgonHash "oldauth") = true ∧
    demoStore.vaults.filter (fun w => w.user_id == demoUser.id) = [demoVault] ∧
    (∃ u',
      (change_user_password_with_vault demoArgonCheck demoArgonHash demoStore demoUser
          "oldauth" "newauth" "s2" "ct2" "iv2" 2).1 = .ok u' ∧
      u'.salt = some "s2" ∧
      get_vault_by_id
          (change_user_password_with_vault demoArgonCheck demoArgonHash demoStore demoUser
            "oldauth" "newauth" "s2" "ct2" "iv2" 2).2
          demoVault.vault_id u'
        = .ok { demoVault with
                ciphertext := "ct2"
                iv := "iv2"
                salt := "s2"
                version := 2
                updated_at := demoStore.now }) :=
  ⟨rfl, by decide, by decide, by decide,
    C2_change_password_success_vault_reflects_new_data demoArgonCheck demoArgonHash
      demoStore demoUser "oldauth" "newauth" "s2" "ct2" "iv2" 2
      (demoArgonHash "oldauth") demoVault rfl (by decide) (by decide) (by decide)
      (by decide) (by decide)⟩

/-- C3: `authenticate_user` loads all identities whose username matches,
fails with `UserNotFound` exactly when there are none, fails with
`AuthenticationFailed` exactly when candidates exist but none of their
stored hashes verifies the candidate credential, and otherwise returns the
first candidate (in load order) that verifies. -/
theorem C3_authenticate_user_characterization
    (argonCheck : String → String → Bool) (st : Store)
    (username auth_hash : String)
    (wf : ∀ w ∈ st.users.filter (fun u => u.username == some username),
      ∃ h, w.auth_hash = some h ∧ identifyArgon2 h = true) :
    (authenticate_user argonCheck st username auth_hash
        = .error (.userNotFound "User not found")
      ↔ st.users.filter (fun u => u.username == some username) = [])
    ∧ (authenticate_user argonCheck st username auth_hash
        = .error (.authenticationFailed "Invalid authentication credentials")
      ↔ st.users.filter (fun u => u.username == some username) ≠ [] ∧
        ∀ w ∈ st.users.filter (fun u => u.username == some username),
          verifiesB argonCheck auth_hash w = false)
    ∧ (∀ u, authenticate_user argonCheck st username auth_hash = .ok u
      ↔ (st.users.filter (fun u => u.username == some username)).find?
          (verifiesB argonCheck auth_hash) = some u) := by
  unfold authenticate_user
  cases hf : st.users.filter (fun u => u.username == some username) with
  | nil => simp [List.isEmpty_iff]
  | cons w l =>
    rw [hf] at wf
    constructor
    · simp only [List.isEmpty_iff]
      constructor
      · intro hcon
        exact absurd (by simpa using hcon)
          (findVerified_ne_userNotFound argonCheck auth_hash (w :: l) "User not found")
      · intro hcon; exact absurd hcon (by simp)
    constructor
    · simpa using findVerified_authFailed_iff argonCheck auth_hash (w :: l) wf
    · intro u
      simpa using findVerified_ok_iff argonCheck auth_hash (w :: l) u wf

/-- C3 witness: the theorem applied to a store with two identities sharing
the username `"bob"`; the characterization is instantiated with the second
identity's credential, so the multi-candidate path is exercised. -/
theorem C3_authenticate_user_characterization_witness :
    (∀ w ∈ demoStoreB.users.filter (fun u => u.username == some "bob"),
      ∃ h, w.auth_hash = some h ∧ identifyArgon2 h = true) ∧
    ((authenticate_user demoArgonCheck demoStoreB "bob" "b2"
        = .error (.userNotFound "User not found")
      ↔ demoStoreB.users.filter (fun u => u.username == some "bob") = [])
    ∧ (authenticate_user demoArgonCheck demoStoreB "bob" "b2"
        = .error (.authenticationFailed "Invalid authentication credentials")
      ↔ demoStoreB.users.filter (fun u => u.username == some "bob") ≠ [] ∧
        ∀ w ∈ demoStoreB.users.filter (fun u => u.username == some "bob"),
          verifiesB demoArgonCheck "b2" w = false)
    ∧ (∀ u, authenticate_user demoArgonCheck demoStoreB "bob" "b2" = .ok u
      ↔ (demoStoreB.users.filter (fun u => u.username == some "bob")).find?
          (verifiesB demoArgonCheck "b2") = some u)) :=
  ⟨by decide,
    C3_authenticate_user_characterization demoArgonCheck demoStoreB "bob" "b2"
      (by decide)⟩

/-- C4: starting from a store with no identity for either `(username, salt)`
pair, registering `(username, authString, salt)` succeeds; registering the
identical triple again fails with `AlreadyExists`; the duplicate check fires
exactly when the supplied credential verifies against the stored hash of the
existing `(username, salt)` identity; and registering the same username with
a different salt succeeds, creating an identity with a distinct id. -/
theorem C4_register_duplicate_triple_and_distinct_salt
    (argonCheck : String → String → Bool) (argonHash : String → String)
    (st : Store) (un a s s2 : String)
    (hrt : argonCheck a (argonHash a) = true)
    (hidA : identifyArgon2 (argonHash a) = true)
    (h0 : st.users.filter (fun u => u.username == some un && u.salt == some s) = [])
    (h02 : st.users.filter (fun u => u.username == some un && u.salt == some s2) = [])
    (hss : s2 ≠ s) :
    ∃ u1,
      (register_user argonCheck argonHash st un a s).1 = .ok u1 ∧
      (register_user argonCheck argonHash
          (register_user argonCheck argonHash st un a s).2 un a s).1
        = .error (.valueError "User already exists") ∧
      (∀ a2, (register_user argonCheck argonHash
          (register_user argonCheck argonHash st un a s).2 un a2 s).1
          = .error (.valueError "User already exists")
        ↔ argonCheck a2 (argonHash a) = true) ∧
      (register_user argonCheck argonHash
          (register_user argonCheck argonHash st un a s).2 un a s2).1.isOk = true ∧
      (∀ v, (register_user argonCheck argonHash
          (register_user argonCheck argonHash st un a s).2 un a s2).1 = .ok v →
        v.id ≠ u1.id) := by
  have e1 : register_user argonCheck argonHash st un a s =
      (.ok { id := st.nextUserId
             auth_type := "password"
             username := some un
             auth_hash := some (hash_auth_string argonHash a)
             salt := some s
             wallet_address := none
             message_version := none
             created_at := st.now
             updated_at := st.now },
       { st with
         users := st.users ++ [{ id := st.nextUserId
                                 auth_type := "password"
                                 username := some un
                                 auth_hash := some (hash_auth_string argonHash a)
                                 salt := some s
                                 wallet_address := none
                                 message_version := none
                                 created_at := st.now
                                 updated_at := st.now }]
         nextUserId := st.nextUserId + 1 }) := by
    unfold register_user
    rw [h0]
    rfl
  rw [e1]
  dsimp only
  refine ⟨_, rfl, ?_, ?_, ?_, ?_⟩
  case _ =>
    unfold register_user
    dsimp only
    rw [List.filter_append, h0]
    simp [scalarOneOrNone, verifyStoredHash, verify_auth_string, cryptContextVerify,
      hidA, hrt, hash_auth_string]
  case _ =>
    intro a2
    unfold register_user
    dsimp only
    rw [List.filter_append, h0]
    cases hc : argonCheck a2 (argonHash a) with
    | true =>
      simp [scalarOneOrNone, verifyStoredHash, verify_auth_string, cryptContextVerify,
        hidA, hc, hash_auth_string]
    | false =>
      simp [scalarOneOrNone, verifyStoredHash, verify_auth_string, cryptContextVerify,
        hidA, hc, hash_auth_string]
  case _ =>
    unfold register_user
    dsimp only
    rw [List.filter_append, h02]
    have hne : ((some s : Option String) == some s2) = false := by
      simp [Ne.symm hss]
    simp [scalarOneOrNone, hne, Except.isOk, Except.toBool]
  case _ =>
    intro v hv
    unfold register_user at hv
    dsimp only at hv
    rw [List.filter_append, h02] at hv
    have hne : ((some s : Option String) == some s2) = false := by
      simp [Ne.symm hss]
    simp [scalarOneOrNone, hne] at hv
    subst hv
    simp

/-- C4 witness: the theorem applied to the empty store, registering
`("carol", "ca", "salt1")` and then re-registering the same triple and the
same username with salt `"salt2"`. -/
theorem C4_register_duplicate_triple_and_distinct_salt_witness :
    demoArgonCheck "ca" (demoArgonHash "ca") = true ∧
    identifyArgon2 (demoArgonHash "ca") = true ∧
    ("salt2" : String) ≠ "salt1" ∧
    (∃ u1,
      (register_user demoArgonCheck demoArgonHash emptyStore "carol" "ca" "salt1").1
        = .ok u1 ∧
      (register_user demoArgonCheck demoArgonHash
          (register_user demoArgonCheck demoArgonHash emptyStore "carol" "ca" "salt1").2
          "carol" "ca" "salt1").1
        = .error (.valueError "User already exists") ∧
      (∀ a2, (register_user demoArgonCheck demoArgonHash
          (register_user demoArgonCheck demoArgonHash emptyStore "carol" "ca" "salt1").2
          "carol" a2 "salt1").1
          = .error (.valueError "User already exists")
        ↔ demoArgonCheck a2 (demoArgonHash "ca") = true) ∧
      (register_user demoArgonCheck demoArgonHash
          (register_user demoArgonCheck demoArgonHash emptyStore "carol" "ca" "salt1").2
          "carol" "ca" "salt2").1.isOk = true ∧
      (∀ v, (register_user demoArgonCheck demoArgonHash
          (register_user demoArgonCheck demoArgonHash emptyStore "carol" "ca" "salt1").2
          "carol" "ca" "salt2").1 = .ok v →
        v.id ≠ u1.id)) :=
  ⟨by decide, by decide, by decide,
    C4_register_duplicate_triple_and_distinct_salt demoArgonCheck demoArgonHash
      emptyStore "carol" "ca" "salt1" "salt2" (by decide) (by decide) (by decide)
      (by decide) (by decide)⟩

/-- C5 counterexample: one identity creates two vaults with distinct
`vault_id`s; both creations succeed and the resulting store holds two
vaults owned by that identity, so vault creation does not enforce
"at most one vault per user" and does not check whether the caller already
owns a vault. -/
theorem C5_counterexample_two_vaults_one_owner :
    (create_vault demoStoreNoVault demoUser demoVaultReq2).1.isOk = true ∧
    (create_vault (create_vault demoStoreNoVault demoUser demoVaultReq2).2
        demoUser demoVaultReq3).1.isOk = true ∧
    ((create_vault (create_vault demoStoreNoVault demoUser demoVaultReq2).2
        demoUser demoVaultReq3).2.vaults.filter
      (fun v => v.user_id == demoUser.id)).length = 2 := by decide

/-- C5 amended: `create_vault`'s application-level existence check is on the
global `vault_id` namespace only — it fails with `AlreadyExists` exactly
when a vault with the same `vault_id` exists, and succeeds regardless of
whether the caller already owns a vault, appending a new vault owned by the
caller. -/
theorem C5_amended_create_vault_checks_vault_id_only
    (st : Store) (user : User) (vd : VaultBlobRequest)
    (hvids : st.vaults.Pairwise (fun a b => a.vault_id ≠ b.vault_id)) :
    ((∃ v ∈ st.vaults, v.vault_id = vd.vault_id) →
      create_vault st user vd
        = (.error (.valueError "Vault with this vault_id already exists"), st))
    ∧ ((∀ v ∈ st.vaults, v.vault_id ≠ vd.vault_id) →
      ∃ nv, create_vault st user vd
          = (.ok nv, { st with vaults := st.vaults ++ [nv], nextVaultRow := st.nextVaultRow + 1 })
        ∧ nv.user_id = user.id ∧ nv.vault_id = vd.vault_id) := by
  constructor
  · rintro ⟨v, hvmem, hvid⟩
    unfold create_vault
    rw [← hvid, filter_vault_id_single st.vaults v hvmem hvids]
    rfl
  · intro hnone
    have hfil : st.vaults.filter (fun w => w.vault_id == vd.vault_id) = [] := by
      apply List.filter_eq_nil_iff.mpr
      intro w hw
      simp [hnone w hw]
    unfold create_vault
    rw [hfil]
    exact ⟨_, rfl, rfl, rfl⟩

/-- C5 amended witness: the amended theorem applied to `demoStore`, whose
single vault already uses `demoVault.vault_id`: creating a vault with the
same id fails, creating one with a fresh id succeeds. -/
theorem C5_amended_create_vault_checks_vault_id_only_witness :
    demoStore.vaults.Pairwise (fun a b => a.vault_id ≠ b.vault_id) ∧
    (((∃ v ∈ demoStore.vaults, v.vault_id = demoVaultReq2.vault_id) →
      create_vault demoStore demoUser demoVaultReq2
        = (.error (.valueError "Vault with this vault_id already exists"), demoStore))
    ∧ ((∀ v ∈ demoStore.vaults, v.vault_id ≠ demoVaultReq2.vault_id) →
      ∃ nv, create_vault demoStore demoUser demoVaultReq2
          = (.ok nv, { demoStore with
                       vaults := demoStore.vaults ++ [nv]
                       nextVaultRow := demoStore.nextVaultRow + 1 })
        ∧ nv.user_id = demoUser.id ∧ nv.vault_id = demoVaultReq2.vault_id)) :=
  ⟨by decide,
    C5_amended_create_vault_checks_vault_id_only demoStore demoUser demoVaultReq2
      (by decide)⟩

/-- C6: `get_vault_by_id` fails with `NotFound` when no vault has the given
id (for any caller, so existence is decided before ownership), fails with
`AccessDenied` when the vault exists but is owned by another identity,
succeeds for the owner; the two failure values are distinct; and
`update_vault` and `delete_vault` fail with exactly the same error as the
`get_vault_by_id` lookup they delegate to, leaving the store unchanged. -/
theorem C6_vault_lookup_ownership_sequence (st : Store) (vid : String) (user : User)
    (hvids : st.vaults.Pairwise (fun a b => a.vault_id ≠ b.vault_id)) :
    ((∀ v ∈ st.vaults, v.vault_id ≠ vid) →
      get_vault_by_id st vid user = .error (.vaultNotFound "Vault not found"))
    ∧ (∀ v ∈ st.vaults, v.vault_id = vid → v.user_id ≠ user.id →
      get_vault_by_id st vid user = .error (.vaultAccessDenied "Access denied to this vault"))
    ∧ (∀ v ∈ st.vaults, v.vault_id = vid → v.user_id = user.id →
      get_vault_by_id st vid user = .ok v)
    ∧ ((.vaultNotFound "Vault not found" : ServiceError)
        ≠ .vaultAccessDenied "Access denied to this vault")
    ∧ (∀ e vu, get_vault_by_id st vid user = .error e →
        update_vault st vid user vu = (.error e, st)
        ∧ delete_vault st vid user = (.error e, st)) := by
  refine ⟨?_, ?_, ?_, by simp, ?_⟩
  · intro hnone
    have hfil : st.vaults.filter (fun w => w.vault_id == vid) = [] := by
      apply List.filter_eq_nil_iff.mpr
      intro w hw
      simp [hnone w hw]
    unfold get_vault_by_id
    rw [hfil]
    rfl
  · intro v hvmem hvid hown
    unfold get_vault_by_id
    rw [← hvid, filter_vault_id_single st.vaults v hvmem hvids]
    simp [scalarOneOrNone, hown]
  · intro v hvmem hvid hown
    unfold get_vault_by_id
    rw [← hvid, filter_vault_id_single st.vaults v hvmem hvids]
    simp [scalarOneOrNone, hown]
  · intro e vu hget
    unfold update_vault delete_vault
    rw [hget]
    exact ⟨rfl, rfl⟩

/-- C6 witness: the theorem applied to `demoStore` with `demoVault`'s id and
the non-owner identity `demoUserB1`, exercising the `AccessDenied` case and
the update/delete agreement. -/
theorem C6_vault_lookup_ownership_sequence_witness :
    demoStore.vaults.Pairwise (fun a b => a.vault_id ≠ b.vault_id) ∧
    (((∀ v ∈ demoStore.vaults, v.vault_id ≠ demoVault.vault_id) →
      get_vault_by_id demoStore demoVault.vault_id demoUserB1
        = .error (.vaultNotFound "Vault not found"))
    ∧ (∀ v ∈ demoStore.vaults, v.vault_id = demoVault.vault_id →
        v.user_id ≠ demoUserB1.id →
      get_vault_by_id demoStore demoVault.vault_id demoUserB1
        = .error (.vaultAccessDenied "Access denied to this vault"))
    ∧ (∀ v ∈ demoStore.vaults, v.vault_id = demoVault.vault_id →
        v.user_id = demoUserB1.id →
      get_vault_by_id demoStore demoVault.vault_id demoUserB1 = .ok v)
    ∧ ((.vaultNotFound "Vault not found" : ServiceError)
        ≠ .vaultAccessDenied "Access denied to this vault")
    ∧ (∀ e vu, get_vault_by_id demoStore demoVault.vault_id demoUserB1 = .error e →
        update_vault demoStore demoVault.vault_id demoUserB1 vu = (.error e, demoStore)
        ∧ delete_vault demoStore demoVault.vault_id demoUserB1 = (.error e, demoStore))) :=
  ⟨by decide,
    C6_vault_lookup_ownership_sequence demoStore demoVault.vault_id demoUserB1
      (by decide)⟩

/-- C7: the login route returns the identical externally visible response —
status 401, detail "Invalid authentication credentials", header
`WWW-Authenticate: Bearer` — whether no identity with the username exists
(internal `NotFound`) or identities exist but none verifies the supplied
credential (internal `AuthenticationFailed`), so a client cannot
distinguish the two. -/
theorem C7_login_not_found_and_mismatch_indistinguishable
    (argonCheck : String → String → Bool) (tokenFor : Nat → String)
    (st : Store) (un a : String)
    (wf : ∀ w ∈ st.users.filter (fun u => u.username == some un),
      ∃ h, w.auth_hash = some h ∧ identifyArgon2 h = true) :
    ((st.users.filter (fun u => u.username == some un) = []) →
      login argonCheck tokenFor st un a
        = .httpError { status := 401
                       detail := "Invalid authentication credentials"
                       www_authenticate := some "Bearer" })
    ∧ ((st.users.filter (fun u => u.username == some un) ≠ [] ∧
        ∀ w ∈ st.users.filter (fun u => u.username == some un),
          verifiesB argonCheck a w = false) →
      login argonCheck tokenFor st un a
        = .httpError { status := 401
                       detail := "Invalid authentication credentials"
                       www_authenticate := some "Bearer" }) := by
  constructor
  · intro hnil
    have hauth : authenticate_user argonCheck st un a
        = .error (.userNotFound "User not found") := by
      unfold authenticate_user
      rw [hnil]
      rfl
    unfold login
    rw [hauth]
  · rintro ⟨hne, hall⟩
    have hauth : authenticate_user argonCheck st un a
        = .error (.authenticationFailed "Invalid authentication credentials") := by
      unfold authenticate_user
      cases hf : st.users.filter (fun u => u.username == some un) with
      | nil => exact absurd hf hne
      | cons w l =>
        rw [hf] at wf hall
        simp only [List.isEmpty_cons, if_false]
        exact (findVerified_authFailed_iff argonCheck a (w :: l) wf).mpr hall
    unfold login
    rw [hauth]

/-- C7 witness: the theorem applied to the store with two `"bob"`
identities and a credential neither of them verifies. -/
theorem C7_login_not_found_and_mismatch_indistinguishable_witness :
    (∀ w ∈ demoStoreB.users.filter (fun u => u.username == some "bob"),
      ∃ h, w.auth_hash = some h ∧ identifyArgon2 h = true) ∧
    (((demoStoreB.users.filter (fun u => u.username == some "bob") = []) →
      login demoArgonCheck demoTokenFor demoStoreB "bob" "zz"
        = .httpError { status := 401
                       detail := "Invalid authentication credentials"
                       www_authenticate := some "Bearer" })
    ∧ ((demoStoreB.users.filter (fun u => u.username == some "bob") ≠ [] ∧
        ∀ w ∈ demoStoreB.users.filter (fun u => u.username == some "bob"),
          verifiesB demoArgonCheck "zz" w = false) →
      login demoArgonCheck demoTokenFor demoStoreB "bob" "zz"
        = .httpError { status := 401
                       detail := "Invalid authentication credentials"
                       www_authenticate := some "Bearer" })) :=
  ⟨by decide,
    C7_login_not_found_and_mismatch_indistinguishable demoArgonCheck demoTokenFor
      demoStoreB "bob" "zz" (by decide)⟩

/-- C8 counterexample: on the stored-hash string `"nothash"`, which is not
parsable as an Argon2 hash, the verifier raises `UnknownHashError` instead
of returning the boolean `false`, refuting "never raises an exception; when
the stored hash is unparsable it returns false". -/
theorem C8_counterexample_unparsable_hash_raises :
    verify_auth_string demoArgonCheck "candidate" "nothash" = .error .unknownHash ∧
    verify_auth_string demoArgonCheck "candidate" "nothash" ≠ .ok false := by
  have h1 : verify_auth_string demoArgonCheck "candidate" "nothash"
      = .error .unknownHash := rfl
  refine ⟨h1, ?_⟩
  intro hcon
  rw [h1] at hcon
  exact Except.noConfusion hcon

/-- C8 amended: `verify_auth_string` returns a boolean — the Argon2
verification result — whenever the stored hash is recognizable as an Argon2
hash, and raises `UnknownHashError` (rather than returning false) whenever
it is not. -/
theorem C8_amended_verify_boolean_only_for_recognized_hashes
    (argonCheck : String → String → Bool) (c h : String) :
    (identifyArgon2 h = true →
      verify_auth_string argonCheck c h = .ok (argonCheck c h))
    ∧ (identifyArgon2 h = false →
      verify_auth_string argonCheck c h = .error .unknownHash) := by
  constructor
  · intro hid
    simp [verify_auth_string, cryptContextVerify, hid]
  · intro hid
    simp [verify_auth_string, cryptContextVerify, hid]

/-- C8 amended witness: the amended theorem applied to one recognizable and
one unrecognizable stored hash. -/
theorem C8_amended_verify_boolean_only_for_recognized_hashes_witness :
    (identifyArgon2 (demoArgonHash "x") = true ∧
      verify_auth_string demoArgonCheck "x" (demoArgonHash "x")
        = .ok (demoArgonCheck "x" (demoArgonHash "x"))) ∧
    (identifyArgon2 "nothash" = false ∧
      verify_auth_string demoArgonCheck "x" "nothash" = .error .unknownHash) :=
  ⟨⟨by decide,
    (C8_amended_verify_boolean_only_for_recognized_hashes demoArgonCheck "x"
      (demoArgonHash "x")).1 (by decide)⟩,
   ⟨by decide,
    (C8_amended_verify_boolean_only_for_recognized_hashes demoArgonCheck "x"
      "nothash").2 (by decide)⟩⟩

/-- C9: a string is in the salts list returned for a username exactly when
it is the stored salt of some identity with that username — every matching
identity's salt is reported (usernames are not unique) and nothing but
salts of matching identities is reported (in particular, never hashes). -/
theorem C9_get_salts_exactly_matching_salts (st : Store) (un s : String) :
    s ∈ get_salts st un ↔ ∃ u ∈ st.users, u.username = some un ∧ u.salt = some s := by
  unfold get_salts get_salts_by_username
  simp [List.mem_filterMap, List.mem_filter, and_assoc]

/-- C10: when wallet registration with address `a` succeeds, the stored
`wallet_address` is the lowercased `a`; a subsequent wallet login with any
case variant `b` of `a` (same signature evidence) resolves to the same
identity; and the registration preserves the invariant that every stored
wallet address is lowercase. -/
theorem C10_wallet_address_case_insensitive_resolution
    (recover : String → String → Option String)
    (st : Store) (a b sig msg : String) (ver : Nat)
    (hv : verify_wallet_signature recover msg sig a = true)
    (hfil : st.users.filter (fun w => w.wallet_address == some (pyLower a)) = [])
    (hvar : pyLower b = pyLower a) :
    ∃ u, register_wallet_user recover st a sig msg ver
        = (.ok u, { st with users := st.users ++ [u], nextUserId := st.nextUserId + 1 })
      ∧ u.wallet_address = some (pyLower a)
      ∧ authenticate_wallet_user recover
          (register_wallet_user recover st a sig msg ver).2 b sig msg = .ok u
      ∧ ((∀ w ∈ st.users, ∀ ad, w.wallet_address = some ad → pyLower ad = ad) →
         ∀ w ∈ (register_wallet_user recover st a sig msg ver).2.users, ∀ ad,
           w.wallet_address = some ad → pyLower ad = ad) := by
  have e1 : register_wallet_user recover st a sig msg ver =
      (.ok { id := st.nextUserId
             auth_type := "wallet"
             username := none
             auth_hash := none
             salt := none
             wallet_address := some (pyLower a)
             message_version := some ver
             created_at := st.now
             updated_at := st.now },
       { st with
         users := st.users ++ [{ id := st.nextUserId
                                 auth_type := "wallet"
                                 username := none
                                 auth_hash := none
                                 salt := none
                                 wallet_address := some (pyLower a)
                                 message_version := some ver
                                 created_at := st.now
                                 updated_at := st.now }]
         nextUserId := st.nextUserId + 1 }) := by
    unfold register_wallet_user
    rw [hv, hfil]
    rfl
  rw [e1]
  dsimp only
  refine ⟨_, rfl, rfl, ?_, ?_⟩
  · obtain ⟨r, hr, hra⟩ : ∃ r, recover msg sig = some r ∧ (pyLower r == pyLower a) = true := by
      unfold verify_wallet_signature at hv
      cases hrec : recover msg sig with
      | none => rw [hrec] at hv; simp at hv
      | some r => rw [hrec] at hv; exact ⟨r, rfl, hv⟩
    have hvb : verify_wallet_signature recover msg sig b = true := by
      unfold verify_wallet_signature
      rw [hr, hvar]
      exact hra
    unfold authenticate_wallet_user
    dsimp only
    rw [hvar, List.filter_append, hfil]
    simp only [List.nil_append]
    rw [List.filter_cons]
    simp only [beq_self_eq_true, if_pos]
    rw [List.filter_nil]
    simp [scalarOneOrNone, hvb]
  · intro hinv w hw ad had
    rcases List.mem_append.mp hw with hmem | hmem
    · exact hinv w hmem ad had
    · have hw' : w = { id := st.nextUserId
                       auth_type := "wallet"
                       username := none
                       auth_hash := none
                       salt := none
                       wallet_address := some (pyLower a)
                       message_version := some ver
                       created_at := st.now
                       updated_at := st.now } := by
        simpa using hmem
      subst hw'
      simp only at had
      cases had
      exact pyLower_idem a

/-- C10 witness: the theorem applied to the empty store, registering with
the mixed-case address `"0xAB"` and logging in with `"0xab"`. -/
theorem C10_wallet_address_case_insensitive_resolution_witness :
    verify_wallet_signature demoRecover "msg" "sig" "0xAB" = true ∧
    emptyStore.users.filter
      (fun w => w.wallet_address == some (pyLower "0xAB")) = [] ∧
    pyLower "0xab" = pyLower "0xAB" ∧
    (∃ u, register_wallet_user demoRecover emptyStore "0xAB" "sig" "msg" 1
        = (.ok u, { emptyStore with
                    users := emptyStore.users ++ [u]
                    nextUserId := emptyStore.nextUserId + 1 })
      ∧ u.wallet_address = some (pyLower "0xAB")
      ∧ authenticate_wallet_user demoRecover
          (register_wallet_user demoRecover emptyStore "0xAB" "sig" "msg" 1).2
          "0xab" "sig" "msg" = .ok u
      ∧ ((∀ w ∈ emptyStore.users, ∀ ad, w.wallet_address = some ad → pyLower ad = ad) →
         ∀ w ∈ (register_wallet_user demoRecover emptyStore "0xAB" "sig" "msg" 1).2.users,
           ∀ ad, w.wallet_address = some ad → pyLower ad = ad)) :=
  ⟨by decide, by decide, by decide,
    C10_wallet_address_case_insensitive_resolution demoRecover emptyStore
      "0xAB" "0xab" "sig" "msg" 1 (by decide) (by decide) (by decide)⟩

/-- C1 witness: the theorem applied to `demoStore` with the wrong old
credential `"wrong"`. -/
theorem C1_change_password_wrong_old_credential_no_mutation_witness :
    demoUser.auth_hash = some (demoArgonHash "oldauth") ∧
    identifyArgon2 (demoArgonHash "oldauth") = true ∧
    demoArgonCheck "wrong" (demoArgonHash "oldauth") = false ∧
    change_user_password_with_vault demoArgonCheck demoArgonHash demoStore demoUser
        "wrong" "newauth" "s2" "ct2" "iv2" 1
      = (.error (.authenticationFailed "Invalid current password"), demoStore) :=
  ⟨rfl, by decide, by decide,
    C1_change_password_wrong_old_credential_no_mutation demoArgonCheck demoArgonHash
      demoStore demoUser "wrong" "newauth" "s2" "ct2" "iv2" 1
      (demoArgonHash "oldauth") rfl (by decide) (by decide)⟩

end Habits
